import Mathlib

/-!
Verification development for the Rogers-AI-Schema Tier 1 VAST implementation
(`platforms/vast_schema.py`).

The Python module defines a PyArrow schema for the `ai_documents` table, a
record builder producing default-populated rows, and two application-layer
validators (enum membership and numeric range).  This file gives a shallow
embedding of those definitions and proves the documented properties about
them.

Modelling conventions:
* PyArrow types are modelled by the inductive `ArrowType`; `pa.field` with its
  default `nullable=True` becomes `arrowField`.
* Python `float` values never undergo arithmetic in the embedded code (they
  are only compared and copied), so scores and vector entries are modelled by
  `Rat`, whose order agrees with the order on the exactly-representable
  doubles used in the claims.
* The record builder's two impure inputs (current UTC timestamp, the 128
  random bits consumed by `uuid.uuid4()`) are passed explicitly.
* Python `raise ValueError(msg)` becomes `Except.error msg`.
-/

/-- A PyArrow data type, restricted to the constructors the module uses.
`fixedSizeList` records the inner field name, element type, element
nullability and the fixed size, mirroring
`pa.list_(pa.field(name="item", type=..., nullable=...), dims)`. -/
inductive ArrowType where
  | int64 : ArrowType
  | int32 : ArrowType
  | float64 : ArrowType
  | float32 : ArrowType
  | string : ArrowType
  | bool : ArrowType
  | timestamp (unit : String) (tz : String) : ArrowType
  | fixedSizeList (itemName : String) (itemType : ArrowType)
      (itemNullable : Bool) (size : Int) : ArrowType
deriving DecidableEq, Repr

/-- A PyArrow field: name, type and nullability. -/
structure ArrowField where
  name : String
  type : ArrowType
  nullable : Bool
deriving DecidableEq, Repr

/-- `pa.field(name, type)` with PyArrow's default `nullable=True`. -/
def arrowField (name : String) (type : ArrowType) : ArrowField :=
  { name := name, type := type, nullable := true }

/-- Embedding of `create_vector_field(name, dims)`:
`pa.list_(pa.field(name="item", type=pa.float32(), nullable=False), dims)`
wrapped in a (default-nullable) outer field. -/
def create_vector_field (name : String) (dims : Int) : ArrowField :=
  { name := name,
    type := ArrowType.fixedSizeList "item" ArrowType.float32 false dims,
    nullable := true }

/-- Embedding of `create_ai_documents_schema(vector_dims)`: the ordered field
list passed to `pa.schema([...])`, transcribed field by field from the
source. -/
def create_ai_documents_schema (vector_dims : Int) : List ArrowField :=
  [ -- Core Identity & Audit
    arrowField "vastdb_rowid" ArrowType.int64,
    arrowField "UUID" ArrowType.string,
    arrowField "RogersAISchemaVersion" ArrowType.string,
    arrowField "InsertDateTime" (ArrowType.timestamp "us" "UTC"),
    arrowField "UpdateDateTime" (ArrowType.timestamp "us" "UTC"),
    arrowField "InsertUser" ArrowType.string,
    arrowField "UpdateUser" ArrowType.string,
    -- Source Document Metadata
    arrowField "SourceDocumentName" ArrowType.string,
    arrowField "SourceDocumentPath" ArrowType.string,
    arrowField "SourceDocumentHash" ArrowType.string,
    arrowField "SourceDocumentTitle" ArrowType.string,
    arrowField "SourceDocumentSummary" ArrowType.string,
    arrowField "SourceDocumentAuthor" ArrowType.string,
    arrowField "SourceDocumentOrganization" ArrowType.string,
    -- Document Content & Chunking
    arrowField "DocumentChunkNumber" ArrowType.int32,
    arrowField "DocumentChunkText" ArrowType.string,
    -- Vector Embeddings, 5 providers
    arrowField "DocumentEmbeddingModel01" ArrowType.string,
    arrowField "DocumentEmbeddingURL01" ArrowType.string,
    create_vector_field "DocumentEmbeddingVectors01" vector_dims,
    arrowField "DocumentEmbeddingModel02" ArrowType.string,
    arrowField "DocumentEmbeddingURL02" ArrowType.string,
    create_vector_field "DocumentEmbeddingVectors02" vector_dims,
    arrowField "DocumentEmbeddingModel03" ArrowType.string,
    arrowField "DocumentEmbeddingURL03" ArrowType.string,
    create_vector_field "DocumentEmbeddingVectors03" vector_dims,
    arrowField "DocumentEmbeddingModel04" ArrowType.string,
    arrowField "DocumentEmbeddingURL04" ArrowType.string,
    create_vector_field "DocumentEmbeddingVectors04" vector_dims,
    arrowField "DocumentEmbeddingModel05" ArrowType.string,
    arrowField "DocumentEmbeddingURL05" ArrowType.string,
    create_vector_field "DocumentEmbeddingVectors05" vector_dims,
    -- Privacy & PII Protection
    arrowField "ContainsPII" ArrowType.bool,
    arrowField "PIITypes" ArrowType.string,
    arrowField "PIIDetectionMethod" ArrowType.string,
    arrowField "PIIDetectionDate" (ArrowType.timestamp "us" "UTC"),
    arrowField "SensitiveDataClassification" ArrowType.string,
    arrowField "LegalBasisForProcessing" ArrowType.string,
    arrowField "DataRetentionPeriod" ArrowType.int32,
    arrowField "DeletionScheduledDate" (ArrowType.timestamp "us" "UTC"),
    arrowField "DeletionStatus" ArrowType.string,
    arrowField "AnonymizationStatus" ArrowType.string,
    -- Data Governance & Lineage
    arrowField "DatasetType" ArrowType.string,
    arrowField "DatasetPurpose" ArrowType.string,
    arrowField "DataQualityScore" ArrowType.float64,
    arrowField "DataValidationStatus" ArrowType.string,
    arrowField "DataValidationDate" (ArrowType.timestamp "us" "UTC"),
    arrowField "DataValidatedBy" ArrowType.string,
    arrowField "DataLineageChain" ArrowType.string,
    arrowField "OriginalSourceType" ArrowType.string,
    -- Legal & Licensing Tracking
    arrowField "CopyrightStatus" ArrowType.string,
    arrowField "LicenseType" ArrowType.string,
    arrowField "UsageRestrictions" ArrowType.string,
    arrowField "CommercialUseAllowed" ArrowType.bool,
    arrowField "AttributionRequired" ArrowType.bool,
    arrowField "AttributionText" ArrowType.string,
    -- Risk Management & Content Safety
    arrowField "RiskLevel" ArrowType.string,
    arrowField "ContentSafetyStatus" ArrowType.string,
    arrowField "ContentSafetyScore" ArrowType.float64,
    arrowField "ContentModerationDate" (ArrowType.timestamp "us" "UTC"),
    -- Access Control & Security
    arrowField "AccessControlLevel" ArrowType.string,
    arrowField "DataClassification" ArrowType.string,
    arrowField "AllowedRoles" ArrowType.string,
    -- Enhanced Audit Trail
    arrowField "LastModifiedReason" ArrowType.string,
    -- Document Lifecycle Management
    arrowField "DocumentStatus" ArrowType.string,
    arrowField "DocumentVersion" ArrowType.string ]

/-- The 65 column names of the `ai_documents` schema, in declaration order. -/
def ai_documents_field_names : List String :=
  [ "vastdb_rowid", "UUID", "RogersAISchemaVersion", "InsertDateTime",
    "UpdateDateTime", "InsertUser", "UpdateUser",
    "SourceDocumentName", "SourceDocumentPath", "SourceDocumentHash",
    "SourceDocumentTitle", "SourceDocumentSummary", "SourceDocumentAuthor",
    "SourceDocumentOrganization",
    "DocumentChunkNumber", "DocumentChunkText",
    "DocumentEmbeddingModel01", "DocumentEmbeddingURL01",
    "DocumentEmbeddingVectors01",
    "DocumentEmbeddingModel02", "DocumentEmbeddingURL02",
    "DocumentEmbeddingVectors02",
    "DocumentEmbeddingModel03", "DocumentEmbeddingURL03",
    "DocumentEmbeddingVectors03",
    "DocumentEmbeddingModel04", "DocumentEmbeddingURL04",
    "DocumentEmbeddingVectors04",
    "DocumentEmbeddingModel05", "DocumentEmbeddingURL05",
    "DocumentEmbeddingVectors05",
    "ContainsPII", "PIITypes", "PIIDetectionMethod", "PIIDetectionDate",
    "SensitiveDataClassification", "LegalBasisForProcessing",
    "DataRetentionPeriod", "DeletionScheduledDate", "DeletionStatus",
    "AnonymizationStatus",
    "DatasetType", "DatasetPurpose", "DataQualityScore",
    "DataValidationStatus", "DataValidationDate", "DataValidatedBy",
    "DataLineageChain", "OriginalSourceType",
    "CopyrightStatus", "LicenseType", "UsageRestrictions",
    "CommercialUseAllowed", "AttributionRequired", "AttributionText",
    "RiskLevel", "ContentSafetyStatus", "ContentSafetyScore",
    "ContentModerationDate",
    "AccessControlLevel", "DataClassification", "AllowedRoles",
    "LastModifiedReason",
    "DocumentStatus", "DocumentVersion" ]

/-- Look up the type of a named column in a schema (first match). -/
def schemaFieldType (s : List ArrowField) (n : String) : Option ArrowType :=
  (s.find? (fun f => f.name == n)).map ArrowField.type

/-- The schema-version constant `ROGERS_AI_SCHEMA_VERSION`. -/
def ROGERS_AI_SCHEMA_VERSION : String := "1.0.0-tier1"

/-- Python repr of one string, as it appears inside a formatted list
(`repr` quoting, without escape handling, which no enum value needs). -/
def pyStrRepr (s : String) : String := "\x27" ++ s ++ "\x27"

/-- Python repr of a list of strings, as produced by an f-string
interpolation of a `List[str]` value. -/
def pyListRepr (l : List String) : String :=
  "[" ++ String.intercalate ", " (l.map pyStrRepr) ++ "]"

/-- The `ValueError` message raised by `validate_enum_field`. -/
def enum_error_message (value : String) (allowed_values : List String)
    (field_name : String) : String :=
  "Invalid value \x27" ++ value ++ "\x27 for " ++ field_name ++
    ". Allowed values: " ++ pyListRepr allowed_values

/-- Embedding of `validate_enum_field(value, allowed_values, field_name)`:
returns the value when it is in the allowed list, otherwise raises a
`ValueError` whose message is `enum_error_message`. -/
def validate_enum_field (value : String) (allowed_values : List String)
    (field_name : String) : Except String String :=
  if value ∈ allowed_values then Except.ok value
  else Except.error (enum_error_message value allowed_values field_name)

/-- The `ValueError` message raised by `validate_score_range`. -/
def range_error_message (value : Rat) (field_name : String)
    (min_val max_val : Rat) : String :=
  "Invalid value " ++ toString value ++ " for " ++ field_name ++
    ". Must be between " ++ toString min_val ++ " and " ++ toString max_val

/-- Embedding of `validate_score_range(value, field_name, min_val, max_val)`.
The Python defaults `min_val=0, max_val=100` are made explicit arguments;
see `validate_score_range_default`. -/
def validate_score_range (value : Rat) (field_name : String)
    (min_val max_val : Rat) : Except String Rat :=
  if value < min_val ∨ value > max_val then
    Except.error (range_error_message value field_name min_val max_val)
  else Except.ok value

/-- `validate_score_range` at its Python default bounds `[0, 100]`. -/
def validate_score_range_default (value : Rat) (field_name : String) :
    Except String Rat :=
  validate_score_range value field_name 0 100

/-- The lowercase hexadecimal digit characters, in value order. -/
def hexDigits : List Char := "0123456789abcdef".toList

/-- The hex digit character for a value below 16. -/
def hexChar (n : Nat) : Char := hexDigits.getD n '0'

/-- Fixed-width lowercase hex rendering of `n` (as in Python `"%08x" % n`
for `width = 8`), most significant digit first. -/
def toHex (n : Nat) : Nat → List Char
  | 0 => []
  | w + 1 => hexChar (n / 16 ^ w % 16) :: toHex n w

/-- The 128-bit integer underlying `uuid.uuid4()` built from the random
bits `r`: bits 76..79 are forced to the version nibble `4` and bits 62..63
to the variant bits `10`, exactly as `uuid.UUID(bytes=..., version=4)`
does. -/
def uuid4_int (r : Nat) : Nat :=
  let b0 := r % 2 ^ 128
  let b1 := b0 - b0 / 2 ^ 76 % 2 ^ 4 * 2 ^ 76 + 4 * 2 ^ 76
  b1 - b1 / 2 ^ 62 % 2 ^ 2 * 2 ^ 62 + 2 * 2 ^ 62

/-- Embedding of `generate_uuid()`, i.e. `str(uuid.uuid4())`, with the 128
random bits `r` passed explicitly: the 32 hex digits of `uuid4_int r` in
the canonical 8-4-4-4-12 hyphenated grouping. -/
def generate_uuid (r : Nat) : String :=
  let u := uuid4_int r
  String.mk (toHex (u / 2 ^ 96) 8 ++ '-' ::
    (toHex (u / 2 ^ 80 % 2 ^ 16) 4 ++ '-' ::
      (toHex (u / 2 ^ 64 % 2 ^ 16) 4 ++ '-' ::
        (toHex (u / 2 ^ 48 % 2 ^ 16) 4 ++ '-' ::
          toHex (u % 2 ^ 48) 12))))

/-- Whether a character is a lowercase hexadecimal digit. -/
def isHexDigit (c : Char) : Bool := hexDigits.contains c

/-- Canonical textual UUID format: 36 characters, hyphens exactly at
positions 8, 13, 18 and 23, hex digits everywhere else. -/
def isCanonicalUUID (s : String) : Bool :=
  s.toList.length == 36 &&
    (List.range 36).all (fun i =>
      if i == 8 || i == 13 || i == 18 || i == 23 then
        s.toList.getD i ' ' == '-'
      else isHexDigit (s.toList.getD i ' '))

/-- A value stored in one field of a record dictionary.  Timestamps are an
abstract instant (the `datetime` returned by `get_current_timestamp`),
embedding vectors a list of rationals. -/
inductive Value where
  | null : Value
  | int (i : Int) : Value
  | str (s : String) : Value
  | bool (b : Bool) : Value
  | time (t : Int) : Value
  | vec (v : List Rat) : Value
deriving DecidableEq, Repr

/-- A Python `Optional[int]` as a record value. -/
def optInt : Option Int → Value
  | none => Value.null
  | some i => Value.int i

/-- A Python `Optional[List[float]]` as a record value. -/
def optVec : Option (List Rat) → Value
  | none => Value.null
  | some v => Value.vec v

/-- Python truthiness of an `Optional[List[float]]`: `None` and the empty
list are falsy, every non-empty list is truthy. -/
def pyTruthy : Option (List Rat) → Bool
  | none => false
  | some v => !v.isEmpty

/-- Embedding of `create_example_record`.  The two impure inputs are
explicit: `now` is the timestamp from `get_current_timestamp()` and `rand`
the 128 random bits consumed by `generate_uuid()`.  The returned Python
dict is modelled as its ordered key-value list. -/
def create_example_record (now : Int) (rand : Nat)
    (insert_user document_name chunk_text : String)
    (embedding_vector : Option (List Rat)) (vastdb_rowid : Option Int) :
    List (String × Value) :=
  [ ("vastdb_rowid", optInt vastdb_rowid),
    ("UUID", Value.str (generate_uuid rand)),
    ("RogersAISchemaVersion", Value.str ROGERS_AI_SCHEMA_VERSION),
    ("InsertDateTime", Value.time now),
    ("UpdateDateTime", Value.time now),
    ("InsertUser", Value.str insert_user),
    ("UpdateUser", Value.str insert_user),
    ("SourceDocumentName", Value.str document_name),
    ("SourceDocumentPath", Value.null),
    ("SourceDocumentHash", Value.null),
    ("SourceDocumentTitle", Value.null),
    ("SourceDocumentSummary", Value.null),
    ("SourceDocumentAuthor", Value.null),
    ("SourceDocumentOrganization", Value.null),
    ("DocumentChunkNumber", Value.int 1),
    ("DocumentChunkText", Value.str chunk_text),
    ("DocumentEmbeddingModel01",
      if pyTruthy embedding_vector then Value.str "example-model"
      else Value.null),
    ("DocumentEmbeddingURL01", Value.null),
    ("DocumentEmbeddingVectors01", optVec embedding_vector),
    ("DocumentEmbeddingModel02", Value.null),
    ("DocumentEmbeddingURL02", Value.null),
    ("DocumentEmbeddingVectors02", Value.null),
    ("DocumentEmbeddingModel03", Value.null),
    ("DocumentEmbeddingURL03", Value.null),
    ("DocumentEmbeddingVectors03", Value.null),
    ("DocumentEmbeddingModel04", Value.null),
    ("DocumentEmbeddingURL04", Value.null),
    ("DocumentEmbeddingVectors04", Value.null),
    ("DocumentEmbeddingModel05", Value.null),
    ("DocumentEmbeddingURL05", Value.null),
    ("DocumentEmbeddingVectors05", Value.null),
    ("ContainsPII", Value.bool false),
    ("PIITypes", Value.null),
    ("PIIDetectionMethod", Value.str "not_detected"),
    ("PIIDetectionDate", Value.time now),
    ("SensitiveDataClassification", Value.str "None"),
    ("LegalBasisForProcessing", Value.null),
    ("DataRetentionPeriod", Value.null),
    ("DeletionScheduledDate", Value.null),
    ("DeletionStatus", Value.null),
    ("AnonymizationStatus", Value.str "NotAnonymized"),
    ("DatasetType", Value.str "Production"),
    ("DatasetPurpose", Value.null),
    ("DataQualityScore", Value.null),
    ("DataValidationStatus", Value.str "Pending"),
    ("DataValidationDate", Value.null),
    ("DataValidatedBy", Value.null),
    ("DataLineageChain", Value.null),
    ("OriginalSourceType", Value.str "FileSystem"),
    ("CopyrightStatus", Value.null),
    ("LicenseType", Value.null),
    ("UsageRestrictions", Value.null),
    ("CommercialUseAllowed", Value.null),
    ("AttributionRequired", Value.null),
    ("AttributionText", Value.null),
    ("RiskLevel", Value.str "Low"),
    ("ContentSafetyStatus", Value.str "NotAssessed"),
    ("ContentSafetyScore", Value.null),
    ("ContentModerationDate", Value.null),
    ("AccessControlLevel", Value.str "Internal"),
    ("DataClassification", Value.null),
    ("AllowedRoles", Value.null),
    ("LastModifiedReason", Value.str "Initial insert"),
    ("DocumentStatus", Value.str "Active"),
    ("DocumentVersion", Value.str "1.0") ]

/-- Embedding of the `ENUM_VALUES` dictionary: allowed values per
enum-constrained field. -/
def ENUM_VALUES : List (String × List String) :=
  [ ("PIIDetectionMethod", ["automated", "manual", "both", "not_detected"]),
    ("SensitiveDataClassification",
      ["None", "Low", "Medium", "High", "Critical"]),
    ("LegalBasisForProcessing",
      ["Consent", "Contract", "LegalObligation", "VitalInterests",
       "PublicTask", "LegitimateInterests"]),
    ("DeletionStatus",
      ["Pending", "Scheduled", "Deleted", "Retained", "AwaitingApproval"]),
    ("AnonymizationStatus",
      ["NotAnonymized", "Pseudonymized", "FullyAnonymized"]),
    ("DatasetType",
      ["Training", "Validation", "Testing", "Production", "KnowledgeBase",
       "Archive"]),
    ("DataValidationStatus",
      ["Pending", "Validated", "Failed", "NeedsReview", "InProgress"]),
    ("OriginalSourceType",
      ["Web", "Database", "API", "FileSystem", "Manual", "Email", "S3",
       "SharePoint", "Other"]),
    ("CopyrightStatus",
      ["PublicDomain", "Copyrighted", "CreativeCommons", "Unknown",
       "ProprietaryInternal"]),
    ("RiskLevel", ["Low", "Medium", "High", "Critical", "Unassessed"]),
    ("ContentSafetyStatus",
      ["Safe", "Flagged", "Unsafe", "UnderReview", "NotAssessed"]),
    ("AccessControlLevel",
      ["Public", "Internal", "Confidential", "Restricted", "Classified"]),
    ("DocumentStatus",
      ["Draft", "Active", "Deprecated", "Archived", "Deleted",
       "UnderReview"]) ]

/-- Every hex digit character produced by `hexChar` on an input below 16 is
a lowercase hex digit. -/
theorem isHexDigit_hexChar (n : Nat) (h : n < 16) :
    isHexDigit (hexChar n) = true := by
  interval_cases n <;> rfl

set_option maxHeartbeats 1000000 in
/-- Any string of five hex groups of widths 8, 4, 4, 4 and 12 joined by
hyphens is in canonical UUID format. -/
theorem uuid_shape_canonical (t1 t2 t3 t4 t5 : Nat) :
    isCanonicalUUID (String.mk (toHex t1 8 ++ '-' ::
      (toHex t2 4 ++ '-' :: (toHex t3 4 ++ '-' ::
        (toHex t4 4 ++ '-' :: toHex t5 12))))) = true := by
  unfold isCanonicalUUID
  rw [Bool.and_eq_true]
  refine ⟨rfl, ?_⟩
  rw [List.all_eq_true]
  intro i hi
  have hlt : i < 36 := List.mem_range.mp hi
  interval_cases i <;>
    first
      | rfl
      | exact isHexDigit_hexChar _ (Nat.mod_lt _ (by norm_num))

/-- Every string produced by `generate_uuid` is in canonical UUID format. -/
theorem generate_uuid_canonical (r : Nat) :
    isCanonicalUUID (generate_uuid r) = true :=
  uuid_shape_canonical _ _ _ _ _

/-- C1 counterexample: at dimension 4 the schema builder does not return 52
columns (it returns 65), refuting the claimed column count. -/
theorem schema_column_count_not_52 :
    ¬ (create_ai_documents_schema 4).length = 52 := by decide

/-- C1 (amended): for every dimension N, the schema builder returns exactly
65 columns whose names and order are the fixed list
`ai_documents_field_names`, and each of the 5 embedding-vector columns has
the fixed-size float32 list type of length N. -/
theorem create_ai_documents_schema_spec (N : Int) :
    (create_ai_documents_schema N).length = 65 ∧
    (create_ai_documents_schema N).map ArrowField.name
      = ai_documents_field_names ∧
    schemaFieldType (create_ai_documents_schema N) "DocumentEmbeddingVectors01"
      = some (ArrowType.fixedSizeList "item" ArrowType.float32 false N) ∧
    schemaFieldType (create_ai_documents_schema N) "DocumentEmbeddingVectors02"
      = some (ArrowType.fixedSizeList "item" ArrowType.float32 false N) ∧
    schemaFieldType (create_ai_documents_schema N) "DocumentEmbeddingVectors03"
      = some (ArrowType.fixedSizeList "item" ArrowType.float32 false N) ∧
    schemaFieldType (create_ai_documents_schema N) "DocumentEmbeddingVectors04"
      = some (ArrowType.fixedSizeList "item" ArrowType.float32 false N) ∧
    schemaFieldType (create_ai_documents_schema N) "DocumentEmbeddingVectors05"
      = some (ArrowType.fixedSizeList "item" ArrowType.float32 false N) :=
  ⟨rfl, rfl, rfl, rfl, rfl, rfl, rfl⟩

/-- C7: the schema builder is deterministic and pure in N: two invocations
with the same N agree field by field in name, type and nullability. -/
theorem create_ai_documents_schema_deterministic (N : Int) :
    List.Forall₂ (fun f g : ArrowField =>
        f.name = g.name ∧ f.type = g.type ∧ f.nullable = g.nullable)
      (create_ai_documents_schema N) (create_ai_documents_schema N) := by
  rw [List.forall₂_same]
  intro x _
  exact ⟨rfl, rfl, rfl⟩

/-- C8: `create_vector_field` builds a nullable column whose type is a
fixed-length list of length `dims` over float32, with the inner element
field named "item" and non-nullable. -/
theorem create_vector_field_spec (name : String) (dims : Int) :
    (create_vector_field name dims).name = name ∧
    (create_vector_field name dims).type
      = ArrowType.fixedSizeList "item" ArrowType.float32 false dims ∧
    (create_vector_field name dims).nullable = true :=
  ⟨rfl, rfl, rfl⟩

/-- C3: the enum validator returns the value unchanged exactly when it is a
member of the allowed set; otherwise it raises a ValueError whose message
names the offending value, the field and the allowed set. -/
theorem validate_enum_field_spec (v f : String) (s : List String) :
    (validate_enum_field v s f = Except.ok v ↔ v ∈ s) ∧
    (v ∉ s →
      validate_enum_field v s f
        = Except.error (enum_error_message v s f) ∧
      (∃ a b : String, enum_error_message v s f = a ++ v ++ b) ∧
      (∃ a b : String, enum_error_message v s f = a ++ f ++ b) ∧
      (∃ a b : String,
        enum_error_message v s f = a ++ pyListRepr s ++ b)) := by
  refine ⟨⟨fun h => ?_, fun h => ?_⟩, fun h => ?_⟩
  · by_contra hmem
    simp [validate_enum_field, hmem] at h
  · simp [validate_enum_field, h]
  · refine ⟨by simp [validate_enum_field, h], ?_, ?_, ?_⟩
    · exact ⟨"Invalid value \x27",
        "\x27 for " ++ f ++ ". Allowed values: " ++ pyListRepr s,
        by simp [enum_error_message, String.append_assoc]⟩
    · exact ⟨"Invalid value \x27" ++ v ++ "\x27 for ",
        ". Allowed values: " ++ pyListRepr s,
        by simp [enum_error_message, String.append_assoc]⟩
    · exact ⟨"Invalid value \x27" ++ v ++ "\x27 for " ++ f
          ++ ". Allowed values: ", "",
        by simp [enum_error_message, String.append_assoc]⟩

/-- Witness for C3: a member of the PIIDetectionMethod enum passes through
unchanged, and a non-member produces the ValueError message. -/
theorem validate_enum_field_spec_witness :
    validate_enum_field "manual"
        ["automated", "manual", "both", "not_detected"] "PIIDetectionMethod"
      = Except.ok "manual" ∧
    validate_enum_field "bogus"
        ["automated", "manual", "both", "not_detected"] "PIIDetectionMethod"
      = Except.error (enum_error_message "bogus"
          ["automated", "manual", "both", "not_detected"]
          "PIIDetectionMethod") :=
  ⟨(validate_enum_field_spec "manual" "PIIDetectionMethod"
      ["automated", "manual", "both", "not_detected"]).1.mpr (by decide),
   ((validate_enum_field_spec "bogus" "PIIDetectionMethod"
      ["automated", "manual", "both", "not_detected"]).2 (by decide)).1⟩

/-- C4: with the default bounds, the range validator accepts exactly the
closed interval [0, 100]; outside it, it raises a ValueError whose message
names the value, the field and both bounds. -/
theorem validate_score_range_spec (v : Rat) (f : String) :
    (validate_score_range_default v f = Except.ok v ↔ 0 ≤ v ∧ v ≤ 100) ∧
    (v < 0 ∨ 100 < v →
      validate_score_range_default v f
        = Except.error (range_error_message v f 0 100) ∧
      (∃ a b : String,
        range_error_message v f 0 100 = a ++ toString v ++ b) ∧
      (∃ a b : String, range_error_message v f 0 100 = a ++ f ++ b) ∧
      (∃ a b : String,
        range_error_message v f 0 100 = a ++ toString (0 : Rat) ++ b) ∧
      (∃ a b : String,
        range_error_message v f 0 100 = a ++ toString (100 : Rat) ++ b)) := by
  constructor
  · constructor
    · intro h
      by_contra hcon
      rw [not_and_or, not_le, not_le] at hcon
      have hc : v < 0 ∨ v > 100 := hcon
      simp [validate_score_range_default, validate_score_range, hc] at h
    · intro h
      have hc : ¬ (v < 0 ∨ v > 100) := by
        rw [not_or, not_lt, not_lt]
        exact ⟨h.1, h.2⟩
      simp [validate_score_range_default, validate_score_range, hc]
  · intro h
    have hc : v < 0 ∨ v > 100 := h
    refine ⟨by simp [validate_score_range_default, validate_score_range, hc],
      ?_, ?_, ?_, ?_⟩
    · exact ⟨"Invalid value ",
        " for " ++ f ++ ". Must be between " ++ toString (0 : Rat)
          ++ " and " ++ toString (100 : Rat),
        by simp [range_error_message, String.append_assoc]⟩
    · exact ⟨"Invalid value " ++ toString v ++ " for ",
        ". Must be between " ++ toString (0 : Rat) ++ " and "
          ++ toString (100 : Rat),
        by simp [range_error_message, String.append_assoc]⟩
    · exact ⟨"Invalid value " ++ toString v ++ " for " ++ f
          ++ ". Must be between ",
        " and " ++ toString (100 : Rat),
        by simp [range_error_message, String.append_assoc]⟩
    · exact ⟨"Invalid value " ++ toString v ++ " for " ++ f
          ++ ". Must be between " ++ toString (0 : Rat) ++ " and ", "",
        by simp [range_error_message, String.append_assoc]⟩

/-- Witness for C4: the boundary values 0 and 100 are accepted, while
-0.0001 and 100.0001 are rejected with the ValueError message. -/
theorem validate_score_range_spec_witness :
    validate_score_range_default 0 "DataQualityScore" = Except.ok 0 ∧
    validate_score_range_default 100 "DataQualityScore" = Except.ok 100 ∧
    validate_score_range_default (-0.0001) "DataQualityScore"
      = Except.error (range_error_message (-0.0001) "DataQualityScore" 0 100) ∧
    validate_score_range_default 100.0001 "DataQualityScore"
      = Except.error
          (range_error_message 100.0001 "DataQualityScore" 0 100) :=
  ⟨(validate_score_range_spec 0 "DataQualityScore").1.mpr
      (by norm_num),
   (validate_score_range_spec 100 "DataQualityScore").1.mpr
      (by norm_num),
   ((validate_score_range_spec (-0.0001) "DataQualityScore").2
      (Or.inl (by norm_num))).1,
   ((validate_score_range_spec 100.0001 "DataQualityScore").2
      (Or.inr (by norm_num))).1⟩

/-- C2 counterexample: with the empty list supplied as embedding vector, the
record's DocumentEmbeddingModel01 is null rather than the placeholder model
name, refuting the claim for that supplied vector. -/
theorem empty_vector_model01_not_placeholder :
    List.lookup "DocumentEmbeddingModel01"
        (create_example_record 0 0 "u" "d" "t" (some []) none)
      = some Value.null ∧
    some Value.null ≠ some (Value.str "example-model") :=
  ⟨rfl, by simp⟩

/-- C2 (amended): for every non-empty supplied embedding vector, provider
slot 1 holds the placeholder model name and the supplied vector unchanged,
and every field of provider slots 02 through 05 is null. -/
theorem create_example_record_embedding_slots (now : Int) (rand : Nat)
    (u d t : String) (rid : Option Int) (v : List Rat) (hv : v ≠ []) :
    List.lookup "DocumentEmbeddingModel01"
        (create_example_record now rand u d t (some v) rid)
      = some (Value.str "example-model") ∧
    List.lookup "DocumentEmbeddingVectors01"
        (create_example_record now rand u d t (some v) rid)
      = some (Value.vec v) ∧
    List.lookup "DocumentEmbeddingModel02"
        (create_example_record now rand u d t (some v) rid)
      = some Value.null ∧
    List.lookup "DocumentEmbeddingURL02"
        (create_example_record now rand u d t (some v) rid)
      = some Value.null ∧
    List.lookup "DocumentEmbeddingVectors02"
        (create_example_record now rand u d t (some v) rid)
      = some Value.null ∧
    List.lookup "DocumentEmbeddingModel03"
        (create_example_record now rand u d t (some v) rid)
      = some Value.null ∧
    List.lookup "DocumentEmbeddingURL03"
        (create_example_record now rand u d t (some v) rid)
      = some Value.null ∧
    List.lookup "DocumentEmbeddingVectors03"
        (create_example_record now rand u d t (some v) rid)
      = some Value.null ∧
    List.lookup "DocumentEmbeddingModel04"
        (create_example_record now rand u d t (some v) rid)
      = some Value.null ∧
    List.lookup "DocumentEmbeddingURL04"
        (create_example_record now rand u d t (some v) rid)
      = some Value.null ∧
    List.lookup "DocumentEmbeddingVectors04"
        (create_example_record now rand u d t (some v) rid)
      = some Value.null ∧
    List.lookup "DocumentEmbeddingModel05"
        (create_example_record now rand u d t (some v) rid)
      = some Value.null ∧
    List.lookup "DocumentEmbeddingURL05"
        (create_example_record now rand u d t (some v) rid)
      = some Value.null ∧
    List.lookup "DocumentEmbeddingVectors05"
        (create_example_record now rand u d t (some v) rid)
      = some Value.null := by
  cases v with
  | nil => exact absurd rfl hv
  | cons a l =>
      exact ⟨rfl, rfl, rfl, rfl, rfl, rfl, rfl, rfl, rfl, rfl, rfl, rfl,
        rfl, rfl⟩

/-- Witness for C2 (amended): the singleton vector [1] populates slot 1 with
the placeholder model name and the vector itself. -/
theorem create_example_record_embedding_slots_witness :
    List.lookup "DocumentEmbeddingModel01"
        (create_example_record 0 0 "u" "d" "t" (some [1]) none)
      = some (Value.str "example-model") ∧
    List.lookup "DocumentEmbeddingVectors01"
        (create_example_record 0 0 "u" "d" "t" (some [1]) none)
      = some (Value.vec [1]) :=
  ⟨(create_example_record_embedding_slots 0 0 "u" "d" "t" none [1]
      (by simp)).1,
   (create_example_record_embedding_slots 0 0 "u" "d" "t" none [1]
      (by simp)).2.1⟩

/-- C5: the record built for user "alice", document "doc.pdf", chunk text
"hello", no embedding vector and no row id has ContainsPII false,
DocumentStatus "Active", chunk number 1, a null first embedding vector, and
a non-null UUID string in canonical UUID format. -/
theorem create_example_record_defaults_spec (now : Int) (rand : Nat) :
    List.lookup "ContainsPII"
        (create_example_record now rand "alice" "doc.pdf" "hello" none none)
      = some (Value.bool false) ∧
    List.lookup "DocumentStatus"
        (create_example_record now rand "alice" "doc.pdf" "hello" none none)
      = some (Value.str "Active") ∧
    List.lookup "DocumentChunkNumber"
        (create_example_record now rand "alice" "doc.pdf" "hello" none none)
      = some (Value.int 1) ∧
    List.lookup "DocumentEmbeddingVectors01"
        (create_example_record now rand "alice" "doc.pdf" "hello" none none)
      = some Value.null ∧
    List.lookup "UUID"
        (create_example_record now rand "alice" "doc.pdf" "hello" none none)
      = some (Value.str (generate_uuid rand)) ∧
    some (Value.str (generate_uuid rand)) ≠ some Value.null ∧
    isCanonicalUUID (generate_uuid rand) = true :=
  ⟨rfl, rfl, rfl, rfl, rfl, by simp, generate_uuid_canonical rand⟩

/-- C6: a record built without a row identifier has a null vastdb_rowid, and
a record built with an explicit identifier not exceeding 2^48 - 1 carries
that value unchanged. -/
theorem create_example_record_rowid_spec (now : Int) (rand : Nat)
    (u d t : String) (v : Option (List Rat)) :
    List.lookup "vastdb_rowid" (create_example_record now rand u d t v none)
      = some Value.null ∧
    (∀ rowid : Int, rowid ≤ 2 ^ 48 - 1 →
      List.lookup "vastdb_rowid"
          (create_example_record now rand u d t v (some rowid))
        = some (Value.int rowid)) :=
  ⟨rfl, fun _ _ => rfl⟩

/-- Witness for C6: no row id gives null; row id 1000001 is carried
unchanged. -/
theorem create_example_record_rowid_spec_witness :
    List.lookup "vastdb_rowid"
        (create_example_record 0 0 "u" "d" "t" none none)
      = some Value.null ∧
    List.lookup "vastdb_rowid"
        (create_example_record 0 0 "u" "d" "t" none (some 1000001))
      = some (Value.int 1000001) :=
  ⟨(create_example_record_rowid_spec 0 0 "u" "d" "t" none).1,
   (create_example_record_rowid_spec 0 0 "u" "d" "t" none).2 1000001
     (by norm_num)⟩

/-- C9: for every input, each enum-constrained field of the built record is
either null or a member of the allowed set declared for it in ENUM_VALUES. -/
theorem create_example_record_enum_invariant (now : Int) (rand : Nat)
    (u d t : String) (v : Option (List Rat)) (rid : Option Int)
    (p : String × List String) (hp : p ∈ ENUM_VALUES) :
    List.lookup p.1 (create_example_record now rand u d t v rid)
      = some Value.null ∨
    ∃ s, s ∈ p.2 ∧
      List.lookup p.1 (create_example_record now rand u d t v rid)
        = some (Value.str s) := by
  fin_cases hp <;>
    first
      | exact Or.inl rfl
      | exact Or.inr ⟨"not_detected", by decide, rfl⟩
      | exact Or.inr ⟨"None", by decide, rfl⟩
      | exact Or.inr ⟨"NotAnonymized", by decide, rfl⟩
      | exact Or.inr ⟨"Production", by decide, rfl⟩
      | exact Or.inr ⟨"Pending", by decide, rfl⟩
      | exact Or.inr ⟨"FileSystem", by decide, rfl⟩
      | exact Or.inr ⟨"Low", by decide, rfl⟩
      | exact Or.inr ⟨"NotAssessed", by decide, rfl⟩
      | exact Or.inr ⟨"Internal", by decide, rfl⟩
      | exact Or.inr ⟨"Active", by decide, rfl⟩

/-- Witness for C9 at the DocumentStatus enum entry of ENUM_VALUES. -/
theorem create_example_record_enum_invariant_witness :
    List.lookup "DocumentStatus"
        (create_example_record 0 0 "u" "d" "t" none none)
      = some Value.null ∨
    ∃ s, s ∈ ["Draft", "Active", "Deprecated", "Archived", "Deleted",
        "UnderReview"] ∧
      List.lookup "DocumentStatus"
          (create_example_record 0 0 "u" "d" "t" none none)
        = some (Value.str s) :=
  create_example_record_enum_invariant 0 0 "u" "d" "t" none none
    ("DocumentStatus",
      ["Draft", "Active", "Deprecated", "Archived", "Deleted", "UnderReview"])
    (by decide)

/-- C10: an empty supplied embedding vector is copied into Vectors01 while
Model01 stays null; the placeholder model name is set exactly for non-empty
supplied vectors. -/
theorem create_example_record_empty_vector_spec (now : Int) (rand : Nat)
    (u d t : String) (rid : Option Int) :
    List.lookup "DocumentEmbeddingVectors01"
        (create_example_record now rand u d t (some []) rid)
      = some (Value.vec []) ∧
    List.lookup "DocumentEmbeddingModel01"
        (create_example_record now rand u d t (some []) rid)
      = some Value.null ∧
    (∀ v : List Rat,
      List.lookup "DocumentEmbeddingModel01"
          (create_example_record now rand u d t (some v) rid)
        = some (Value.str "example-model") ↔ v ≠ []) := by
  refine ⟨rfl, rfl, ?_⟩
  intro v
  cases v with
  | nil =>
      have hl : List.lookup "DocumentEmbeddingModel01"
          (create_example_record now rand u d t (some []) rid)
        = some Value.null := rfl
      rw [hl]
      simp
  | cons a l =>
      have hl : List.lookup "DocumentEmbeddingModel01"
          (create_example_record now rand u d t (some (a :: l)) rid)
        = some (Value.str "example-model") := rfl
      rw [hl]
      simp
